import Mathlib

/-!
Verification of the SR715/SR720 calibration manager (Serial_SR720.py).

This file gives a shallow embedding of the protocol layer of the tool:
the transport query helpers, the parameter catalog builder, the value
comparator, and the three mode drivers (dump, restore, compare).

Modelling conventions:
* The serial transport is external I/O.  It is modelled by an oracle
  resp : Nat -> String giving the raw line read back for the n-th query
  issued during a run, and (for restore) an oracle raiseAt : Nat -> Bool
  telling whether the n-th send attempt raises a transport exception.
  The trace field of a run result collects, in order, the command lines
  written to the transport (one entry per send_cmd call and one per
  query issued).
* Python float values are modelled as exact rationals.  The parser
  accepts the finite decimal / e-form fragment of the Python float
  grammar (optional sign, digits with optional fraction, optional
  exponent); the special tokens inf and nan and digit group underscores
  are not modelled.  Arithmetic on parsed values is exact rational
  arithmetic, an idealisation of binary64 arithmetic.
* CSV files and the log file are external I/O; the list of snapshot
  rows stands for the parsed CSV content and a list of strings stands
  for the log lines appended by the row loop of each driver.
* Python string methods are modelled by executable functions over the
  character list of a String: str.strip() by pyStrip, str.split(";")
  by pySplitSemi, the membership test of ";" by pyContainsSemi,
  str.startswith(p) by pyStartsWith, str.split(None, 1) by splitNone1
  and ";".join by pyIntercalateSemi.
-/

namespace SR720

/-! ## Python string primitives -/

/-- Model of str.strip(): drop whitespace from both ends. -/
def pyStrip (s : String) : String :=
  String.mk (((s.data.dropWhile Char.isWhitespace).reverse.dropWhile Char.isWhitespace).reverse)

/-- Helper for pySplitSemi: split a character list at every semicolon,
keeping empty segments, with an accumulator for the current segment. -/
def splitSemiAux : List Char → List Char → List (List Char)
  | [], acc => [acc.reverse]
  | c :: cs, acc =>
    if c = ';' then acc.reverse :: splitSemiAux cs [] else splitSemiAux cs (c :: acc)

/-- Model of str.split(";"). -/
def pySplitSemi (s : String) : List String :=
  (splitSemiAux s.data []).map String.mk

/-- Model of the Python membership test of ";" in a string. -/
def pyContainsSemi (s : String) : Bool :=
  s.data.any (fun c => c == ';')

/-- Model of s.startswith(pre). -/
def pyStartsWith (s pre : String) : Bool :=
  s.data.take pre.data.length == pre.data

/-- Model of the join of a list of strings with ";". -/
def pyIntercalateSemi (l : List String) : String :=
  String.mk (List.intercalate [';'] (l.map String.data))

/-- Model of str.split(None, 1): drop leading whitespace, take the
first whitespace-free field, consume the following whitespace run, and
return the remainder (if nonempty) as a second element. -/
def splitNone1 (s : String) : List String :=
  let cs := s.data.dropWhile Char.isWhitespace
  if cs.isEmpty then []
  else
    let fld := cs.takeWhile (fun c => !c.isWhitespace)
    let rest := (cs.dropWhile (fun c => !c.isWhitespace)).dropWhile Char.isWhitespace
    if rest.isEmpty then [String.mk fld] else [String.mk fld, String.mk rest]

/-! ## Transport query helpers (lines 104-126 of the source) -/

/-- Model of read_line: an empty raw read stays empty, otherwise the
decoded line is stripped of surrounding whitespace. -/
def read_line (raw : String) : String :=
  if raw = "" then "" else pyStrip raw

/-- Model of query: reset the input buffer, send the command, wait, and
read one line.  The transport effect is captured by the raw response. -/
def query (raw : String) : String :=
  read_line raw

/-- Model of try_query: returns (ok, response) with ok = false exactly
when the response line is empty. -/
def try_query (raw : String) : Bool × String :=
  let resp := query raw
  if resp = "" then (false, "") else (true, resp)

/-! ## Float parsing and rendering (lines 343-347, 364-365) -/

/-- Numeric value of a list of decimal digit characters. -/
def digitsToNat (ds : List Char) : ℕ :=
  ds.foldl (fun a c => a * 10 + (c.toNat - 48)) 0

/-- Model of float(s) returning none on a parse failure, as wrapped by
the helper to_float_or_none in the source.  Parses the finite decimal
fragment of the Python float grammar into an exact rational. -/
def to_float_or_none (s : String) : Option ℚ :=
  let cs := (pyStrip s).data
  let p :=
    match cs with
    | '+' :: t => ((1 : ℚ), t)
    | '-' :: t => ((-1 : ℚ), t)
    | t => ((1 : ℚ), t)
  let sgn := p.1
  let cs1 := p.2
  let ip := cs1.takeWhile Char.isDigit
  let cs2 := cs1.dropWhile Char.isDigit
  let q :=
    match cs2 with
    | '.' :: t => (t.takeWhile Char.isDigit, t.dropWhile Char.isDigit)
    | t => (([] : List Char), t)
  let fp := q.1
  let cs3 := q.2
  if ip.isEmpty && fp.isEmpty then none
  else
    let mant : ℚ := (digitsToNat ip : ℚ) + (digitsToNat fp : ℚ) / (10 : ℚ) ^ fp.length
    match cs3 with
    | [] => some (sgn * mant)
    | e :: t =>
      if e = 'e' ∨ e = 'E' then
        let r :=
          match t with
          | '+' :: u => ((1 : ℤ), u)
          | '-' :: u => ((-1 : ℤ), u)
          | u => ((1 : ℤ), u)
        let ed := r.2.takeWhile Char.isDigit
        let rest := r.2.dropWhile Char.isDigit
        if ed.isEmpty || !rest.isEmpty then none
        else some (sgn * mant * (10 : ℚ) ^ (r.1 * (digitsToNat ed : ℤ)))
      else none

/-- Decimal digit characters of a natural number, most significant
first; the fuel argument bounds the recursion depth. -/
def natDigits : ℕ → ℕ → List Char
  | 0, _ => []
  | fuel + 1, n =>
    if n = 0 then [] else natDigits fuel (n / 10) ++ [Char.ofNat (48 + n % 10)]

/-- Decimal rendering of a natural number. -/
def natToStr (n : ℕ) : String :=
  if n = 0 then "0" else String.mk (natDigits 400 n)

/-- Smallest k below 400 such that d divides 10 ^ k, if any. -/
def decExp (d : ℕ) : Option ℕ :=
  (List.range 400).find? (fun k => 10 ^ k % d == 0)

/-- Left-pads a digit string with zeros to width k. -/
def padZeros (s : String) (k : ℕ) : String :=
  String.mk (List.replicate (k - s.length) '0') ++ s

/-- Exact decimal rendering of a nonnegative rational whose denominator
divides a power of ten; other rationals fall back to a fraction form. -/
def formatDecimal (q : ℚ) : String :=
  match decExp q.den with
  | some k =>
    let n := q.num.toNat * (10 ^ k / q.den)
    if k = 0 then natToStr n
    else natToStr (n / 10 ^ k) ++ "." ++ padZeros (natToStr (n % 10 ^ k)) k
  | none => natToStr q.num.toNat ++ "/" ++ natToStr q.den

/-- Model of the fixed-precision rendering used for the delta in the
source (format specifier .12g applied to the float delta).  Rendered
here as the exact decimal form of the rational delta. -/
def formatG12 (q : ℚ) : String :=
  if q < 0 then "-" ++ formatDecimal (-q) else formatDecimal q

/-! ## Value comparator (lines 350-365) -/

/-- Model of math.isclose over exact rationals:
abs (a - b) is at most max (rel_tol * max (abs a) (abs b)) abs_tol. -/
def isclose (a b rel_tol abs_tol : ℚ) : Bool :=
  decide (|a - b| ≤ max (rel_tol * max |a| |b|) abs_tol)

/-- Model of compare_values: exact string equality first, then numeric
parsing, then closeness with rel_tol and abs_tol both set to tol. -/
def compare_values (expected actual : String) (tol : ℚ) : Bool × String :=
  let exp := pyStrip expected
  let act := pyStrip actual
  if exp = act then (true, "")
  else
    match to_float_or_none exp, to_float_or_none act with
    | some exp_num, some act_num =>
      let delta := act_num - exp_num
      if isclose exp_num act_num tol tol then (true, formatG12 delta)
      else (false, formatG12 delta)
    | _, _ => (false, "")

/-- Reference comparator transcribed from the words of the spec
(section 4.3): (1) trimmed string equality gives a match with empty
delta; (2) if either side fails to parse the result is a mismatch with
empty delta; (3) otherwise delta = actual - expected and the verdict is
a match exactly when abs delta is at most
tol * max 1 (max (abs expected) (abs actual)), with the delta always
rendered in fixed-precision decimal form. -/
def compare_spec (expected actual : String) (tol : ℚ) : Bool × String :=
  let e := pyStrip expected
  let a := pyStrip actual
  if e = a then (true, "")
  else
    match to_float_or_none e, to_float_or_none a with
    | some en, some an =>
      let delta := an - en
      (decide (|delta| ≤ tol * max 1 (max |en| |an|)), formatG12 delta)
    | _, _ => (false, "")

/-! ## Parameter catalog (lines 36-48, 132-190) -/

/-- Lower bound of the amplitude calbyte index range. -/
def CBT_MIN_I : ℕ := 0

/-- Upper bound of the amplitude calbyte index range. -/
def CBT_MAX_I : ℕ := 94

/-- Lower bound of the measurement range index. -/
def CRN_MIN : ℕ := 0

/-- Upper bound of the measurement range index. -/
def CRN_MAX : ℕ := 3

/-- Lower bound of the floating point calbyte index range. -/
def CFT_MIN_I : ℕ := 0

/-- Upper bound of the floating point calbyte index range. -/
def CFT_MAX_I : ℕ := 120

/-- Model of Python range(a, b). -/
def pyRange (a b : ℕ) : List ℕ :=
  (List.range (b - a)).map (fun i => a + i)

/-- A parameter descriptor, one dict entry of the items list built by
build_dump_items. -/
structure Item where
  key : String
  cmd_read : String
  cmd_write : String
  scope : String
  notes : String
deriving DecidableEq

/-- Model of build_dump_items: the ordered catalog of calibration
parameter descriptors, a pure function of the fixed constants. -/
def build_dump_items : List Item :=
  [⟨"IDN", "*IDN?", "", "global", "Instrument ID string"⟩,
   ⟨"FRQ", "$FRQ?", "$FRQ", "global", "Frequency correction factor (ppm, max 10000, 0.1ppm)"⟩,
   ⟨"RND", "$RND?", "$RND", "global", "Rounding (-1 auto, 0..3 fixed digits)"⟩]
  ++ (pyRange CBT_MIN_I (CBT_MAX_I + 1)).map (fun i =>
       ⟨"CBT[" ++ natToStr i ++ "]", "$CBT? " ++ natToStr i, "$CBT " ++ natToStr i,
        "global", "Amplitude calbyte (j=0..255)"⟩)
  ++ (pyRange CRN_MIN (CRN_MAX + 1)).flatMap (fun r =>
       [⟨"CMJ@R" ++ natToStr r, "$CRN " ++ natToStr r ++ ";$CMJ?",
         "$CRN " ++ natToStr r ++ ";$CMJ", "range:" ++ natToStr r,
         "Std resistor cal: major parameter (Ohms) for range r"⟩,
        ⟨"CMN@R" ++ natToStr r, "$CRN " ++ natToStr r ++ ";$CMN?",
         "$CRN " ++ natToStr r ++ ";$CMN", "range:" ++ natToStr r,
         "Std resistor cal: minor parameter (ppm) for range r"⟩])
  ++ (pyRange CFT_MIN_I (CFT_MAX_I + 1)).map (fun i =>
       ⟨"CFT[" ++ natToStr i ++ "]", "$CFT? " ++ natToStr i, "$CFT " ++ natToStr i,
        "global", "Floating point calbyte i = 0..120"⟩)

/-- Injective code of a catalog key (family tag and numeric index),
used to check key uniqueness without comparing strings pairwise. -/
def keyCode (s : String) : ℕ × ℕ :=
  match s.data with
  | 'C' :: 'B' :: 'T' :: '[' :: rest => (3, digitsToNat (rest.takeWhile Char.isDigit))
  | 'C' :: 'F' :: 'T' :: '[' :: rest => (4, digitsToNat (rest.takeWhile Char.isDigit))
  | 'C' :: 'M' :: 'J' :: '@' :: 'R' :: rest => (5, digitsToNat (rest.takeWhile Char.isDigit))
  | 'C' :: 'M' :: 'N' :: '@' :: 'R' :: rest => (6, digitsToNat (rest.takeWhile Char.isDigit))
  | 'I' :: _ => (0, 0)
  | 'F' :: _ => (1, 0)
  | 'R' :: _ => (2, 0)
  | _ => (7, 0)

/-! ## Snapshot rows and the dump driver (lines 216-245) -/

/-- One row of the snapshot CSV: a descriptor plus the captured value. -/
structure SnapRow where
  key : String
  cmd_read : String
  cmd_write : String
  scope : String
  value : String
  notes : String
deriving DecidableEq

/-- Result of a dump run: the snapshot rows (the CSV content), the log
lines of the row loop, and the success and failure counters. -/
structure DumpOut where
  rows : List SnapRow
  log : List String
  ok_count : ℕ
  fail_count : ℕ
deriving DecidableEq

/-- Row loop of dump_to_csv: every catalog descriptor is queried once,
in order, and produces exactly one snapshot row; n is the index of the
next transport exchange in the response oracle. -/
def dumpLoop (resp : ℕ → String) : ℕ → List Item → DumpOut
  | _, [] => ⟨[], [], 0, 0⟩
  | n, it :: rest =>
    let q := try_query (resp n)
    let o := dumpLoop resp (n + 1) rest
    if q.1 then
      ⟨⟨it.key, it.cmd_read, it.cmd_write, it.scope, q.2, it.notes⟩ :: o.rows,
       ("[ OK ] " ++ it.key ++ " | " ++ it.cmd_read ++ " -> " ++ q.2) :: o.log,
       o.ok_count + 1, o.fail_count⟩
    else
      ⟨⟨it.key, it.cmd_read, it.cmd_write, it.scope, "", it.notes⟩ :: o.rows,
       ("[FAIL] " ++ it.key ++ " | " ++ it.cmd_read ++ " -> (no response)") :: o.log,
       o.ok_count, o.fail_count + 1⟩

/-- Model of dump_to_csv: build the catalog and run the row loop from
transport exchange 0.  Writing the rows to the CSV file and the log
lines to the log file is external I/O. -/
def dump_to_csv (resp : ℕ → String) : DumpOut :=
  dumpLoop resp 0 build_dump_items

/-! ## Restore driver (lines 251-340) -/

/-- Index argument of the final chain segment, as extracted by
restore_from_csv line 289: the second whitespace field, stripped, or
the empty string when the segment has a single field. -/
def targetIdx (target : String) : String :=
  match splitNone1 target with
  | _ :: i :: _ => pyStrip i
  | _ => ""

/-- The appended-value form of the final chain segment (lines 287-292):
the two indexed families take the value after a comma, every other
command takes it after a space. -/
def appendValue (target value : String) : String :=
  if pyStartsWith target "$CBT " || pyStartsWith target "$CFT " then
    if targetIdx target != "" then target ++ "," ++ value else target ++ " " ++ value
  else target ++ " " ++ value

/-- Model of the full write command construction of restore_from_csv
(lines 278-294): a semicolon-chained template is split into stripped
nonempty segments and the value is appended to the last segment only.
Returns none when the segment list is empty, in which case the Python
code raises an uncaught IndexError. -/
def buildFullCmd (cmd_write value : String) : Option String :=
  let parts :=
    if pyContainsSemi cmd_write then
      ((pySplitSemi cmd_write).map pyStrip).filter (fun p => p != "")
    else [cmd_write]
  match parts.reverse with
  | [] => none
  | target :: revInit =>
    some (pyIntercalateSemi (revInit.reverse ++ [appendValue target value]))

/-- Result of a restore run: the transport trace (command lines sent),
the log lines of the row loop, and the counters returned by
restore_from_csv. -/
structure RestoreResult where
  trace : List String
  log : List String
  total : ℕ
  skip_count : ℕ
  dry_count : ℕ
  write_count : ℕ
  bad_verify_count : ℕ
  write_fail_count : ℕ
  failures : ℕ
deriving DecidableEq

/-- Log line of a skipped restore row. -/
def skipLine (key cmd_write value : String) : String :=
  "[SKIP] " ++ key ++ " | cmd_write=\x27" ++ cmd_write ++ "\x27 value=\x27" ++ value ++ "\x27"

/-- Log line of a dry-run restore row. -/
def dryLine (key full_cmd : String) : String :=
  "[DRY ] " ++ key ++ " | " ++ full_cmd

/-- Log line of a restore row whose send raised a write exception. -/
def writeFailLine (key full_cmd : String) : String :=
  "[FAIL] " ++ key ++ " | " ++ full_cmd ++ " | error=(write exception)"

/-- Log line of a written restore row, tagged [ OK ] or [BAD ]. -/
def statusLine (status key full_cmd value verify : String) : String :=
  status ++ " " ++ key ++ " | " ++ full_cmd ++ " | expected=" ++ value ++ " verify=" ++ verify

/-- Row loop of restore_from_csv.  qn indexes the response oracle
(next query) and sn indexes the exception oracle (next send attempt).
Returns none when a row reaches the IndexError of an empty segment
list (see buildFullCmd). -/
def restoreLoop (resp : ℕ → String) (raiseAt : ℕ → Bool) (dry_run : Bool) :
    ℕ → ℕ → List SnapRow → Option RestoreResult
  | _, _, [] => some ⟨[], [], 0, 0, 0, 0, 0, 0, 0⟩
  | qn, sn, r :: rest =>
    let key := pyStrip r.key
    let cmd_write := pyStrip r.cmd_write
    let value := pyStrip r.value
    if cmd_write = "" ∨ value = "" then
      (restoreLoop resp raiseAt dry_run qn sn rest).map (fun o =>
        ⟨o.trace, skipLine key cmd_write value :: o.log, o.total + 1, o.skip_count + 1,
         o.dry_count, o.write_count, o.bad_verify_count, o.write_fail_count, o.failures⟩)
    else
      match buildFullCmd cmd_write value with
      | none => none
      | some full_cmd =>
        if dry_run then
          (restoreLoop resp raiseAt dry_run qn sn rest).map (fun o =>
            ⟨o.trace, dryLine key full_cmd :: o.log, o.total + 1, o.skip_count,
             o.dry_count + 1, o.write_count, o.bad_verify_count, o.write_fail_count,
             o.failures⟩)
        else if raiseAt sn then
          (restoreLoop resp raiseAt dry_run qn (sn + 1) rest).map (fun o =>
            ⟨full_cmd :: o.trace, writeFailLine key full_cmd :: o.log, o.total + 1,
             o.skip_count, o.dry_count, o.write_count, o.bad_verify_count,
             o.write_fail_count + 1, o.failures + 1⟩)
        else
          let cmd_read := pyStrip r.cmd_read
          if cmd_read = "" then
            (restoreLoop resp raiseAt dry_run qn (sn + 1) rest).map (fun o =>
              ⟨full_cmd :: o.trace, statusLine "[ OK ]" key full_cmd value "" :: o.log,
               o.total + 1, o.skip_count, o.dry_count, o.write_count + 1,
               o.bad_verify_count, o.write_fail_count, o.failures⟩)
          else
            let q := try_query (resp qn)
            let verify := if q.1 then pyStrip q.2 else "(no response)"
            let isBad := q.1 && !(compare_values value (pyStrip q.2) 0).1
            (restoreLoop resp raiseAt dry_run (qn + 1) (sn + 1) rest).map (fun o =>
              ⟨full_cmd :: cmd_read :: o.trace,
               statusLine (if isBad then "[BAD ]" else "[ OK ]") key full_cmd value verify
                 :: o.log,
               o.total + 1, o.skip_count, o.dry_count, o.write_count + 1,
               o.bad_verify_count + (if isBad then 1 else 0), o.write_fail_count,
               o.failures + (if isBad then 1 else 0)⟩)

/-- Model of restore_from_csv: the initial identity sanity check (line
259) sends one query over the transport and consumes response 0, then
the row loop replays the snapshot rows. -/
def restore_from_csv (resp : ℕ → String) (raiseAt : ℕ → Bool) (rows : List SnapRow)
    (dry_run : Bool) : Option RestoreResult :=
  let idn := try_query (resp 0)
  (restoreLoop resp raiseAt dry_run 1 0 rows).map (fun o =>
    ⟨"*IDN?" :: o.trace,
     ("[INFO] *IDN? -> " ++ (if idn.1 then idn.2 else "(no response)")) :: o.log,
     o.total, o.skip_count, o.dry_count, o.write_count, o.bad_verify_count,
     o.write_fail_count, o.failures⟩)

/-! ## Compare driver (lines 368-455) -/

/-- One row of the comparison report CSV. -/
structure CompareRow where
  key : String
  cmd_read : String
  expected : String
  actual : String
  status : String
  delta : String
  notes : String
deriving DecidableEq

/-- Result of a compare run: the report rows, the log lines of the row
loop, and the four classification counters. -/
structure CompareOut where
  report : List CompareRow
  log : List String
  match_count : ℕ
  mismatch_count : ℕ
  read_fail_count : ℕ
  skip_count : ℕ
deriving DecidableEq

/-- Row loop of compare_from_csv; n indexes the response oracle. -/
def compareLoop (resp : ℕ → String) (tol : ℚ) : ℕ → List SnapRow → CompareOut
  | _, [] => ⟨[], [], 0, 0, 0, 0⟩
  | n, r :: rest =>
    let key := pyStrip r.key
    let cmd_read := pyStrip r.cmd_read
    let expected := pyStrip r.value
    let notes := pyStrip r.notes
    if cmd_read = "" ∨ expected = "" then
      let o := compareLoop resp tol n rest
      ⟨⟨key, cmd_read, expected, "", "skipped", "", notes⟩ :: o.report,
       ("[SKIP] " ++ key ++ " | cmd_read=\x27" ++ cmd_read ++ "\x27 expected=\x27"
          ++ expected ++ "\x27") :: o.log,
       o.match_count, o.mismatch_count, o.read_fail_count, o.skip_count + 1⟩
    else
      let q := try_query (resp n)
      let o := compareLoop resp tol (n + 1) rest
      if q.1 then
        let c := compare_values expected q.2 tol
        if c.1 then
          ⟨⟨key, cmd_read, expected, q.2, "match", c.2, notes⟩ :: o.report,
           ("[ OK ] " ++ key ++ " | expected=" ++ expected ++ " actual=" ++ q.2
              ++ " delta=" ++ c.2) :: o.log,
           o.match_count + 1, o.mismatch_count, o.read_fail_count, o.skip_count⟩
        else
          ⟨⟨key, cmd_read, expected, q.2, "mismatch", c.2, notes⟩ :: o.report,
           ("[DIFF] " ++ key ++ " | expected=" ++ expected ++ " actual=" ++ q.2
              ++ " delta=" ++ c.2) :: o.log,
           o.match_count, o.mismatch_count + 1, o.read_fail_count, o.skip_count⟩
      else
        ⟨⟨key, cmd_read, expected, "", "read_fail", "", notes⟩ :: o.report,
         ("[FAIL] " ++ key ++ " | " ++ cmd_read ++ " -> (no response)") :: o.log,
         o.match_count, o.mismatch_count, o.read_fail_count + 1, o.skip_count⟩

/-- Model of compare_from_csv: the initial identity sanity check
consumes response 0, then the row loop classifies every snapshot row.
The report rows stand for the report CSV; the baseline rows are never
modified. -/
def compare_from_csv (resp : ℕ → String) (rows : List SnapRow) (tol : ℚ) : CompareOut :=
  compareLoop resp tol 1 rows

/-! ## Proof helpers and concrete fixtures -/

/-- Boolean pairwise-distinctness check, used to decide key uniqueness
of the catalog without building a quadratic proof term. -/
def allDistinct {α : Type} [BEq α] : List α → Bool
  | [] => true
  | a :: l => !(l.contains a) && allDistinct l

/-- The family codes of the catalog keys, in catalog order. -/
def catalogCodes : List (ℕ × ℕ) :=
  [(0, 0), (1, 0), (2, 0)]
  ++ (List.range 95).map (fun i => (3, i))
  ++ (List.range 4).flatMap (fun r => [(5, r), (6, r)])
  ++ (List.range 121).map (fun i => (4, i))

/-- Transport oracle for concrete runs: every raw read returns 12. -/
def wResp : ℕ → String := fun _ => "12"

/-- Exception oracle for concrete runs: no send attempt raises. -/
def wRaise : ℕ → Bool := fun _ => false

/-- Snapshot row with a valid value and read command. -/
def rowA : SnapRow := ⟨"FRQ", "$FRQ?", "$FRQ", "global", "0.0", ""⟩

/-- Snapshot row with an empty value. -/
def rowB : SnapRow := ⟨"RND", "$RND?", "$RND", "global", "", ""⟩

/-- Snapshot row for an amplitude calbyte at index 0. -/
def rowC : SnapRow := ⟨"CBT[0]", "$CBT? 0", "$CBT 0", "global", "12", ""⟩

/-- Transport oracle for the three-row compare example: the query for
row A (exchange 1) answers 0.0 and the query for row C (exchange 2)
times out with an empty read. -/
def cmpResp : ℕ → String := fun n => if n = 1 then "0.0" else ""

/-- Expected result of the concrete dry restore run over the single
empty-value row. -/
def wDryOut : RestoreResult :=
  ⟨["*IDN?"],
   ["[INFO] *IDN? -> 12", skipLine "RND" "$RND" ""],
   1, 1, 0, 0, 0, 0, 0⟩

/-- Classification contract between a snapshot row and its report row:
the status is skipped exactly when the trimmed read command or trimmed
expected value is empty; otherwise it is read_fail exactly when the
recorded live response is empty; otherwise the comparator on the
trimmed expected value and the recorded response decides between match
and mismatch and supplies the reported delta. -/
def compareRowRel (tol : ℚ) (r : SnapRow) (c : CompareRow) : Prop :=
  (c.status = "skipped" ↔ (pyStrip r.cmd_read = "" ∨ pyStrip r.value = ""))
  ∧ (c.status = "read_fail" ↔
      (¬(pyStrip r.cmd_read = "" ∨ pyStrip r.value = "") ∧ c.actual = ""))
  ∧ (c.status = "skipped" ∨ c.status = "read_fail" ∨
      (c.status =
          (if (compare_values (pyStrip r.value) c.actual tol).1 then "match"
           else "mismatch")
        ∧ c.delta = (compare_values (pyStrip r.value) c.actual tol).2
        ∧ c.actual ≠ ""))

/-! ## Helper lemmas -/

/-- A list passing the Boolean distinctness check has no duplicates. -/
theorem nodup_of_allDistinct {α : Type} [BEq α] [LawfulBEq α] :
    ∀ l : List α, allDistinct l = true → l.Nodup := by
  intro l h
  induction l with
  | nil => exact List.nodup_nil
  | cons a t ih =>
    simp only [allDistinct, Bool.and_eq_true, Bool.not_eq_true'] at h
    refine List.nodup_cons.mpr ⟨?_, ih h.2⟩
    intro hmem
    have h2 : t.contains a = true := List.elem_iff.mpr hmem
    rw [h.1] at h2
    exact Bool.false_ne_true h2

/-- A successful try_query returns a nonempty response. -/
theorem try_query_ok_ne_empty (raw : String) (h : (try_query raw).1 = true) :
    (try_query raw).2 ≠ "" := by
  unfold try_query at h ⊢
  by_cases hq : query raw = "" <;> simp [hq] at h ⊢

/-- A string whose character list is empty is the empty string. -/
theorem eq_empty_of_data_eq_nil {s : String} (h : s.data = []) : s = "" := by
  cases s with
  | mk d =>
    simp only [String.data] at h
    cases h
    rfl

/-- Appending to a nonempty string stays nonempty. -/
theorem append_ne_empty_left (s t : String) (h : s ≠ "") : s ++ t ≠ "" := by
  intro he
  apply h
  have hd := congrArg String.data he
  rw [String.data_append] at hd
  exact eq_empty_of_data_eq_nil (List.append_eq_nil.mp hd).1

/-- The digit list of a nonzero number is nonempty. -/
theorem natDigits_ne_nil (fuel n : ℕ) (h : n ≠ 0) : natDigits (fuel + 1) n ≠ [] := by
  simp [natDigits, h]

/-- The rendering of a natural number is never empty. -/
theorem natToStr_ne_empty (n : ℕ) : natToStr n ≠ "" := by
  unfold natToStr
  by_cases h : n = 0
  · rw [if_pos h]; decide
  · rw [if_neg h]
    intro he
    exact natDigits_ne_nil 399 n h (by simpa using congrArg String.data he)

/-- The decimal rendering of a rational is never empty. -/
theorem formatDecimal_ne_empty (q : ℚ) : formatDecimal q ≠ "" := by
  unfold formatDecimal
  cases h : decExp q.den with
  | none => exact append_ne_empty_left _ _ (append_ne_empty_left _ _ (natToStr_ne_empty _))
  | some k =>
    by_cases hk : k = 0
    · simp only [hk, if_pos]; exact natToStr_ne_empty _
    · simp only [hk, if_neg, ite_false]
      exact append_ne_empty_left _ _ (append_ne_empty_left _ _ (natToStr_ne_empty _))

/-- The delta rendering is never the empty string. -/
theorem formatG12_ne_empty (q : ℚ) : formatG12 q ≠ "" := by
  unfold formatG12
  by_cases h : q < 0
  · rw [if_pos h]
    exact append_ne_empty_left _ _ (by decide)
  · rw [if_neg h]
    exact formatDecimal_ne_empty _

/-- A Bool-branching pair with equal second components collapses. -/
theorem pairIf (b : Bool) (x : String) :
    (if b then ((true : Bool), x) else ((false : Bool), x)) = (b, x) := by
  cases b <;> rfl

/-- The closeness test with equal tolerances is symmetric. -/
theorem isclose_comm (x y t : ℚ) : isclose x y t t = isclose y x t t := by
  unfold isclose
  apply decide_eq_decide.mpr
  rw [abs_sub_comm, max_comm |x| |y|]

/-! ## Claim theorems -/

/-- C5: try_query returns (success, response) where success is false if
and only if the response string is empty; a successful query returns
the nonempty stripped line read from the transport and a failed one
returns the empty string. -/
theorem try_query_spec (raw : String) :
    ((try_query raw).1 = false ↔ (try_query raw).2 = "") ∧
    ((try_query raw).1 = true ↔ (try_query raw).2 ≠ "") ∧
    ((try_query raw).2 = read_line raw ∨ (try_query raw).2 = "") := by
  unfold try_query query
  by_cases h : read_line raw = "" <;> simp [h]

set_option maxRecDepth 400000

/-- C7: the catalog builder is a pure function of the fixed constants:
it returns the explicitly generated ordered descriptor key sequence
(identity, frequency correction, rounding, amplitude calbytes over the
closed index interval 0..94, a major and a minor range-scoped
parameter for each of the 4 ranges 0..3, and floating point calbytes
over the closed index interval 0..120, hence 3 + 95 + 8 + 121 = 227
descriptors), and no two descriptors share a key. -/
theorem build_dump_items_spec :
    build_dump_items.map Item.key =
        ["IDN", "FRQ", "RND"]
        ++ (List.range (CBT_MAX_I + 1)).map (fun i => "CBT[" ++ natToStr i ++ "]")
        ++ (List.range (CRN_MAX + 1)).flatMap
             (fun r => ["CMJ@R" ++ natToStr r, "CMN@R" ++ natToStr r])
        ++ (List.range (CFT_MAX_I + 1)).map (fun i => "CFT[" ++ natToStr i ++ "]")
    ∧ (build_dump_items.map Item.key).Nodup
    ∧ build_dump_items.length = 227 := by
  refine ⟨rfl, ?_, rfl⟩
  have h1 : (build_dump_items.map Item.key).map keyCode = catalogCodes := by
    rw [List.map_map]; rfl
  have h2 : catalogCodes.Nodup := nodup_of_allDistinct catalogCodes (by rfl)
  exact List.Nodup.of_map keyCode (h1 ▸ h2)

/-- C10: the comparator verdict is symmetric in its two value
arguments, and the two reported delta strings are either both empty or
renderings of two rationals that are negations of each other. -/
theorem compare_values_symm (e a : String) (tol : ℚ) :
    (compare_values e a tol).1 = (compare_values a e tol).1 ∧
    ((compare_values e a tol).2 = "" ∧ (compare_values a e tol).2 = "" ∨
      ∃ d : ℚ, (compare_values e a tol).2 = formatG12 d ∧
        (compare_values a e tol).2 = formatG12 (-d)) := by
  have hEq : ∀ (s t : String) (u : ℚ), pyStrip s = pyStrip t →
      compare_values s t u = (true, "") := by
    intro s t u hst
    simp only [compare_values, hst, eq_self_iff_true, if_true]
  by_cases h : pyStrip e = pyStrip a
  · rw [hEq e a tol h, hEq a e tol h.symm]
    exact ⟨rfl, Or.inl ⟨rfl, rfl⟩⟩
  · have h2 : ¬(pyStrip a = pyStrip e) := fun hh => h hh.symm
    rcases hE : to_float_or_none (pyStrip e) with _ | en
      <;> rcases hA : to_float_or_none (pyStrip a) with _ | an
      <;> simp only [compare_values, if_neg h, if_neg h2, hE, hA]
    · simp
    · simp
    · simp
    · rw [pairIf, pairIf]
      exact ⟨isclose_comm en an tol, Or.inr ⟨an - en, rfl, by rw [neg_sub]⟩⟩

/-- The numeric path of compare_values: with distinct trimmed strings
that both parse, the verdict is the closeness test and the delta is the
rendering of actual minus expected. -/
theorem compare_values_numeric (e a : String) (tol en an : ℚ)
    (hne : ¬(pyStrip e = pyStrip a))
    (hE : to_float_or_none (pyStrip e) = some en)
    (hA : to_float_or_none (pyStrip a) = some an) :
    compare_values e a tol = (isclose en an tol tol, formatG12 (an - en)) := by
  simp only [compare_values, if_neg hne, hE, hA]
  rw [pairIf]

/-- The numeric path of the reference comparator. -/
theorem compare_spec_numeric (e a : String) (tol en an : ℚ)
    (hne : ¬(pyStrip e = pyStrip a))
    (hE : to_float_or_none (pyStrip e) = some en)
    (hA : to_float_or_none (pyStrip a) = some an) :
    compare_spec e a tol =
      (decide (|an - en| ≤ tol * max 1 (max |en| |an|)), formatG12 (an - en)) := by
  simp only [compare_spec, if_neg hne, hE, hA]

/-- For a nonnegative tolerance the closeness test of the source agrees
with the tolerance formula of the spec. -/
theorem isclose_eq_spec (en an tol : ℚ) (htol : 0 ≤ tol) :
    isclose en an tol tol = decide (|an - en| ≤ tol * max 1 (max |en| |an|)) := by
  unfold isclose
  apply decide_eq_decide.mpr
  have hb : tol * max 1 (max |en| |an|) = max (tol * max |en| |an|) tol := by
    rw [mul_max_of_nonneg _ _ htol, mul_one, max_comm]
  rw [abs_sub_comm en an, hb]

/-- C3: compare_values implements the three-step reference definition
of the spec for every nonnegative tolerance; the step-3 delta rendering
is always nonempty; and on the concrete examples the comparator matches
1.0000 against 1.0000001 at tolerance 1e-6 with a nonempty delta,
matches the identical non-numeric strings, and rejects distinct
non-numeric strings with an empty delta. -/
theorem compare_values_correct (e a : String) (tol : ℚ) (htol : 0 ≤ tol) :
    compare_values e a tol = compare_spec e a tol
    ∧ (∀ q : ℚ, formatG12 q ≠ "")
    ∧ (compare_values "1.0000" "1.0000001" (1 / 1000000)).1 = true
    ∧ (compare_values "1.0000" "1.0000001" (1 / 1000000)).2 ≠ ""
    ∧ compare_values "abc" "abc" 0 = (true, "")
    ∧ compare_values "abc" "def" 1 = (false, "") := by
  have hne1 : ¬(pyStrip "1.0000" = pyStrip "1.0000001") := by decide
  have hE1 : to_float_or_none (pyStrip "1.0000") =
      some ((1 : ℚ) * (((1 : ℕ) : ℚ) + ((0 : ℕ) : ℚ) / (10 : ℚ) ^ (4 : ℕ))) := rfl
  have hA1 : to_float_or_none (pyStrip "1.0000001") =
      some ((1 : ℚ) * (((1 : ℕ) : ℚ) + ((1 : ℕ) : ℚ) / (10 : ℚ) ^ (7 : ℕ))) := rfl
  have hcex := compare_values_numeric "1.0000" "1.0000001" (1 / 1000000) _ _ hne1 hE1 hA1
  refine ⟨?_, formatG12_ne_empty, ?_, ?_, rfl, rfl⟩
  · by_cases h : pyStrip e = pyStrip a
    · simp only [compare_values, compare_spec, h, eq_self_iff_true, if_true]
    · have h2 := h
      rcases hE : to_float_or_none (pyStrip e) with _ | en
        <;> rcases hA : to_float_or_none (pyStrip a) with _ | an
      · simp only [compare_values, compare_spec, if_neg h, hE, hA]
      · simp only [compare_values, compare_spec, if_neg h, hE, hA]
      · simp only [compare_values, compare_spec, if_neg h, hE, hA]
      · rw [compare_values_numeric e a tol en an h hE hA,
          compare_spec_numeric e a tol en an h hE hA,
          isclose_eq_spec en an tol htol]
  · rw [hcex]
    unfold isclose
    rw [decide_eq_true_eq]
    apply le_max_of_le_right
    rw [abs_le]
    constructor <;> push_cast <;> norm_num
  · rw [hcex]
    exact formatG12_ne_empty _

/-- Witness for C3 at a concrete nonnegative tolerance. -/
theorem compare_values_correct_witness :
    (0 : ℚ) ≤ 0 ∧ compare_values "1.5" "2.5" 0 = compare_spec "1.5" "2.5" 0 :=
  ⟨le_refl 0, (compare_values_correct "1.5" "2.5" 0 (le_refl 0)).1⟩

/-- The dump row loop emits one row per descriptor in order, copying
the descriptor fields and recording the response on success and the
empty string on failure, and its two counters partition the items. -/
theorem dumpLoop_spec (resp : ℕ → String) :
    ∀ (items : List Item) (n : ℕ),
      (dumpLoop resp n items).rows = (List.enumFrom n items).map (fun p =>
        ⟨p.2.key, p.2.cmd_read, p.2.cmd_write, p.2.scope,
          if (try_query (resp p.1)).1 then (try_query (resp p.1)).2 else "", p.2.notes⟩)
      ∧ (dumpLoop resp n items).ok_count + (dumpLoop resp n items).fail_count
          = items.length := by
  intro items
  induction items with
  | nil => intro n; exact ⟨rfl, rfl⟩
  | cons it rest ih =>
    intro n
    obtain ⟨ih1, ih2⟩ := ih (n + 1)
    by_cases hq : (try_query (resp n)).1 = true
    · constructor
      · simp only [dumpLoop, hq, if_true, List.enumFrom, List.map_cons]
        rw [ih1]
      · simp only [dumpLoop, hq, if_true, List.length_cons]
        omega
    · simp only [Bool.not_eq_true] at hq
      constructor
      · simp only [dumpLoop, hq, Bool.false_eq_true, if_false, List.enumFrom,
          List.map_cons]
        rw [ih1]
      · simp only [dumpLoop, hq, Bool.false_eq_true, if_false, List.length_cons]
        omega

/-- C8: dump produces exactly one snapshot row per catalog descriptor,
in catalog order, with the key, commands, scope and notes copied from
the descriptor; the value is the query response when the read succeeds
and the empty string when it fails; every row is kept, and
ok + fail = total = number of descriptors. -/
theorem dump_to_csv_spec (resp : ℕ → String) :
    (dump_to_csv resp).rows = (List.enumFrom 0 build_dump_items).map (fun p =>
      ⟨p.2.key, p.2.cmd_read, p.2.cmd_write, p.2.scope,
        if (try_query (resp p.1)).1 then (try_query (resp p.1)).2 else "", p.2.notes⟩)
    ∧ (dump_to_csv resp).rows.length = build_dump_items.length
    ∧ (dump_to_csv resp).ok_count + (dump_to_csv resp).fail_count
        = build_dump_items.length := by
  obtain ⟨h1, h2⟩ := dumpLoop_spec resp build_dump_items 0
  refine ⟨h1, ?_, h2⟩
  rw [show (dump_to_csv resp).rows = (dumpLoop resp 0 build_dump_items).rows from rfl, h1]
  simp

/-- C2: a snapshot row whose trimmed write command or trimmed value is
empty is never replayed: the restore row loop sends nothing to the
transport for that row, increments the skipped counter, logs a skip
line and leaves the writes counter and every other counter unchanged. -/
theorem restore_skip_rule
    (resp : ℕ → String) (raiseAt : ℕ → Bool) (dry_run : Bool) (qn sn : ℕ)
    (r : SnapRow) (rest : List SnapRow)
    (h : pyStrip r.cmd_write = "" ∨ pyStrip r.value = "") :
    restoreLoop resp raiseAt dry_run qn sn (r :: rest) =
      (restoreLoop resp raiseAt dry_run qn sn rest).map (fun o =>
        ⟨o.trace,
         skipLine (pyStrip r.key) (pyStrip r.cmd_write) (pyStrip r.value) :: o.log,
         o.total + 1, o.skip_count + 1, o.dry_count, o.write_count,
         o.bad_verify_count, o.write_fail_count, o.failures⟩) := by
  simp only [restoreLoop, if_pos h]

/-- Witness for C2 on the concrete empty-value row. -/
theorem restore_skip_rule_witness :
    (pyStrip rowB.cmd_write = "" ∨ pyStrip rowB.value = "") ∧
    restoreLoop wResp wRaise false 0 0 [rowB] =
      (restoreLoop wResp wRaise false 0 0 []).map (fun o =>
        ⟨o.trace,
         skipLine (pyStrip rowB.key) (pyStrip rowB.cmd_write) (pyStrip rowB.value) :: o.log,
         o.total + 1, o.skip_count + 1, o.dry_count, o.write_count,
         o.bad_verify_count, o.write_fail_count, o.failures⟩) :=
  ⟨Or.inr rfl, restore_skip_rule wResp wRaise false 0 0 rowB [] (Or.inr rfl)⟩

/-- The compare row loop emits one report row per snapshot row, its
four counters partition the rows, and every report row satisfies the
classification contract with its snapshot row. -/
theorem compareLoop_spec (resp : ℕ → String) (tol : ℚ) :
    ∀ (rows : List SnapRow) (n : ℕ),
      (compareLoop resp tol n rows).report.length = rows.length
      ∧ (compareLoop resp tol n rows).match_count
          + (compareLoop resp tol n rows).mismatch_count
          + (compareLoop resp tol n rows).read_fail_count
          + (compareLoop resp tol n rows).skip_count = rows.length
      ∧ List.Forall₂ (compareRowRel tol) rows (compareLoop resp tol n rows).report := by
  intro rows
  induction rows with
  | nil => intro n; exact ⟨rfl, rfl, List.Forall₂.nil⟩
  | cons r rest ih =>
    intro n
    by_cases hskip : pyStrip r.cmd_read = "" ∨ pyStrip r.value = ""
    · obtain ⟨ih1, ih2, ih3⟩ := ih n
      simp only [compareLoop, if_pos hskip, List.length_cons]
      refine ⟨by rw [ih1], by omega, List.Forall₂.cons ?_ ih3⟩
      refine ⟨iff_of_true rfl hskip,
        iff_of_false (show ¬(("skipped" : String) = "read_fail") by decide)
          (fun hh => hh.1 hskip), Or.inl rfl⟩
    · by_cases hq : (try_query (resp n)).1 = true
      · obtain ⟨ih1, ih2, ih3⟩ := ih (n + 1)
        by_cases hc : (compare_values (pyStrip r.value) (try_query (resp n)).2 tol).1 = true
        · simp only [compareLoop, if_neg hskip, hq, hc, if_true, List.length_cons]
          refine ⟨by rw [ih1], by omega, List.Forall₂.cons ?_ ih3⟩
          refine ⟨iff_of_false (show ¬(("match" : String) = "skipped") by decide) hskip,
            iff_of_false (show ¬(("match" : String) = "read_fail") by decide)
              (fun hh => try_query_ok_ne_empty _ hq hh.2),
            Or.inr (Or.inr ⟨by rw [if_pos hc], rfl, try_query_ok_ne_empty _ hq⟩)⟩
        · simp only [Bool.not_eq_true] at hc
          simp only [compareLoop, if_neg hskip, hq, hc, if_true, Bool.false_eq_true,
            if_false, List.length_cons]
          refine ⟨by rw [ih1], by omega, List.Forall₂.cons ?_ ih3⟩
          refine ⟨iff_of_false (show ¬(("mismatch" : String) = "skipped") by decide) hskip,
            iff_of_false (show ¬(("mismatch" : String) = "read_fail") by decide)
              (fun hh => try_query_ok_ne_empty _ hq hh.2),
            Or.inr (Or.inr ⟨by rw [hc]; rfl, rfl, try_query_ok_ne_empty _ hq⟩)⟩
      · obtain ⟨ih1, ih2, ih3⟩ := ih (n + 1)
        simp only [Bool.not_eq_true] at hq
        simp only [compareLoop, if_neg hskip, hq, Bool.false_eq_true, if_false,
          List.length_cons]
        refine ⟨by rw [ih1], by omega, List.Forall₂.cons ?_ ih3⟩
        exact ⟨iff_of_false (show ¬(("read_fail" : String) = "skipped") by decide) hskip,
          iff_of_true rfl ⟨hskip, rfl⟩, Or.inr (Or.inl rfl)⟩

/-- C4: compare classifies every snapshot row into exactly one of the
four statuses per the classification contract, produces exactly one
report row per input row, and the four counters partition the total;
on the three-row example (valid row, empty-value row, empty live
response) it reports one match, one skipped and one read_fail row. -/
theorem compare_from_csv_spec (resp : ℕ → String) (rows : List SnapRow) (tol : ℚ) :
    (compare_from_csv resp rows tol).report.length = rows.length
    ∧ (compare_from_csv resp rows tol).match_count
        + (compare_from_csv resp rows tol).mismatch_count
        + (compare_from_csv resp rows tol).read_fail_count
        + (compare_from_csv resp rows tol).skip_count = rows.length
    ∧ List.Forall₂ (compareRowRel tol) rows (compare_from_csv resp rows tol).report
    ∧ (compare_from_csv cmpResp [rowA, rowB, rowC] (1 / 1000000)).report.map
        CompareRow.status = ["match", "skipped", "read_fail"]
    ∧ (compare_from_csv cmpResp [rowA, rowB, rowC] (1 / 1000000)).match_count = 1
    ∧ (compare_from_csv cmpResp [rowA, rowB, rowC] (1 / 1000000)).mismatch_count = 0
    ∧ (compare_from_csv cmpResp [rowA, rowB, rowC] (1 / 1000000)).read_fail_count = 1
    ∧ (compare_from_csv cmpResp [rowA, rowB, rowC] (1 / 1000000)).skip_count = 1
    ∧ (compare_from_csv cmpResp [rowA, rowB, rowC] (1 / 1000000)).report.length = 3 := by
  obtain ⟨h1, h2, h3⟩ := compareLoop_spec resp tol rows 1
  exact ⟨h1, h2, h3, rfl, rfl, rfl, rfl, rfl, rfl⟩

/-- In every completed restore row loop the overall failure counter is
the sum of the bad-verify counter and the write-exception counter. -/
theorem restoreLoop_failures (resp : ℕ → String) (raiseAt : ℕ → Bool) (dry_run : Bool) :
    ∀ (rows : List SnapRow) (qn sn : ℕ) (o : RestoreResult),
      restoreLoop resp raiseAt dry_run qn sn rows = some o →
      o.failures = o.bad_verify_count + o.write_fail_count := by
  intro rows
  induction rows with
  | nil =>
    intro qn sn o h
    simp only [restoreLoop, Option.some.injEq] at h
    subst h
    rfl
  | cons r rest ih =>
    intro qn sn o h
    simp only [restoreLoop] at h
    split at h
    · rw [Option.map_eq_some'] at h
      obtain ⟨o2, hrec, rfl⟩ := h
      have hih := ih _ _ _ hrec
      dsimp only
      omega
    · split at h
      · exact absurd h (by simp)
      · split at h
        · rw [Option.map_eq_some'] at h
          obtain ⟨o2, hrec, rfl⟩ := h
          have hih := ih _ _ _ hrec
          dsimp only
          omega
        · split at h
          · rw [Option.map_eq_some'] at h
            obtain ⟨o2, hrec, rfl⟩ := h
            have hih := ih _ _ _ hrec
            dsimp only
            omega
          · split at h
            · rw [Option.map_eq_some'] at h
              obtain ⟨o2, hrec, rfl⟩ := h
              have hih := ih _ _ _ hrec
              dsimp only
              omega
            · rw [Option.map_eq_some'] at h
              obtain ⟨o2, hrec, rfl⟩ := h
              have hih := ih _ _ _ hrec
              dsimp only
              split <;> omega

/-- C6: in a non-dry restore, after a non-skipped row is sent the
readback verification query happens exactly when the trimmed read
command is nonempty (the trace gains the read command and the response
index advances), the readback is compared against the expected value
by the comparator at zero tolerance, a verification mismatch
increments the bad-verify counter and is logged with the BAD tag, a
write exception increments the write-exception counter and is logged
with the FAIL tag, each of the two also increments the overall failure
counter, and at the end of any completed run the failure counter
equals the sum of the bad-verify and write-exception counters. -/
theorem restore_verify_spec
    (resp : ℕ → String) (raiseAt : ℕ → Bool) (qn sn : ℕ) (r : SnapRow)
    (rest : List SnapRow) (fc : String)
    (hskip : ¬(pyStrip r.cmd_write = "" ∨ pyStrip r.value = ""))
    (hfc : buildFullCmd (pyStrip r.cmd_write) (pyStrip r.value) = some fc) :
    (raiseAt sn = true →
      restoreLoop resp raiseAt false qn sn (r :: rest) =
        (restoreLoop resp raiseAt false qn (sn + 1) rest).map (fun o =>
          ⟨fc :: o.trace, writeFailLine (pyStrip r.key) fc :: o.log, o.total + 1,
           o.skip_count, o.dry_count, o.write_count, o.bad_verify_count,
           o.write_fail_count + 1, o.failures + 1⟩))
    ∧ (raiseAt sn = false → pyStrip r.cmd_read = "" →
      restoreLoop resp raiseAt false qn sn (r :: rest) =
        (restoreLoop resp raiseAt false qn (sn + 1) rest).map (fun o =>
          ⟨fc :: o.trace,
           statusLine "[ OK ]" (pyStrip r.key) fc (pyStrip r.value) "" :: o.log,
           o.total + 1, o.skip_count, o.dry_count, o.write_count + 1,
           o.bad_verify_count, o.write_fail_count, o.failures⟩))
    ∧ (raiseAt sn = false → pyStrip r.cmd_read ≠ "" →
      restoreLoop resp raiseAt false qn sn (r :: rest) =
        (restoreLoop resp raiseAt false (qn + 1) (sn + 1) rest).map (fun o =>
          ⟨fc :: pyStrip r.cmd_read :: o.trace,
           statusLine
             (if (try_query (resp qn)).1
                  && !(compare_values (pyStrip r.value)
                        (pyStrip (try_query (resp qn)).2) 0).1
              then "[BAD ]" else "[ OK ]")
             (pyStrip r.key) fc (pyStrip r.value)
             (if (try_query (resp qn)).1 then pyStrip (try_query (resp qn)).2
              else "(no response)") :: o.log,
           o.total + 1, o.skip_count, o.dry_count, o.write_count + 1,
           o.bad_verify_count
             + (if (try_query (resp qn)).1
                    && !(compare_values (pyStrip r.value)
                          (pyStrip (try_query (resp qn)).2) 0).1
                then 1 else 0),
           o.write_fail_count,
           o.failures
             + (if (try_query (resp qn)).1
                    && !(compare_values (pyStrip r.value)
                          (pyStrip (try_query (resp qn)).2) 0).1
                then 1 else 0)⟩))
    ∧ (∀ (rows : List SnapRow) (out : RestoreResult),
        restore_from_csv resp raiseAt rows false = some out →
        out.failures = out.bad_verify_count + out.write_fail_count) := by
  refine ⟨?_, ?_, ?_, ?_⟩
  · intro hr
    simp only [restoreLoop, if_neg hskip, hfc, Bool.false_eq_true, if_false, hr, if_true]
  · intro hr hcr
    simp only [restoreLoop, if_neg hskip, hfc, Bool.false_eq_true, if_false, hr,
      hcr, eq_self_iff_true, if_true]
  · intro hr hcr
    simp only [restoreLoop, if_neg hskip, hfc, Bool.false_eq_true, if_false, hr,
      if_neg hcr]
  · intro rows out h
    rw [show restore_from_csv resp raiseAt rows false =
          (restoreLoop resp raiseAt false 1 0 rows).map (fun o =>
            ⟨"*IDN?" :: o.trace,
             ("[INFO] *IDN? -> "
                ++ (if (try_query (resp 0)).1 then (try_query (resp 0)).2
                    else "(no response)")) :: o.log,
             o.total, o.skip_count, o.dry_count, o.write_count, o.bad_verify_count,
             o.write_fail_count, o.failures⟩) from rfl, Option.map_eq_some'] at h
    obtain ⟨o2, hrec, rfl⟩ := h
    exact restoreLoop_failures resp raiseAt false rows 1 0 o2 hrec

/-- Witness for C6 on the concrete amplitude row with a matching
readback. -/
theorem restore_verify_spec_witness :
    ¬(pyStrip rowC.cmd_write = "" ∨ pyStrip rowC.value = "") ∧
    restoreLoop wResp wRaise false 0 0 [rowC] =
      some ⟨["$CBT 0,12", "$CBT? 0"],
        [statusLine "[ OK ]" "CBT[0]" "$CBT 0,12" "12" "12"], 1, 0, 0, 1, 0, 0, 0⟩ := by
  constructor
  · decide
  · have h := (restore_verify_spec wResp wRaise 0 0 rowC [] "$CBT 0,12"
      (by decide) (by rfl)).2.2.1 rfl (by decide)
    rw [h]
    rfl

/-- In a completed dry-run row loop nothing is written to the
transport, the write, bad-verify, write-exception and failure counters
stay zero, every row is either skipped or dry-counted, and every
non-skipped row has its full write command constructed and logged. -/
theorem restoreLoop_dry (resp : ℕ → String) (raiseAt : ℕ → Bool) :
    ∀ (rows : List SnapRow) (qn sn : ℕ) (o : RestoreResult),
      restoreLoop resp raiseAt true qn sn rows = some o →
      o.trace = [] ∧ o.write_count = 0 ∧ o.bad_verify_count = 0
      ∧ o.write_fail_count = 0 ∧ o.failures = 0 ∧ o.total = rows.length
      ∧ o.skip_count + o.dry_count = rows.length
      ∧ o.dry_count = (rows.filter (fun rr =>
          !decide (pyStrip rr.cmd_write = "" ∨ pyStrip rr.value = ""))).length
      ∧ o.log = rows.map (fun rr =>
          if pyStrip rr.cmd_write = "" ∨ pyStrip rr.value = "" then
            skipLine (pyStrip rr.key) (pyStrip rr.cmd_write) (pyStrip rr.value)
          else dryLine (pyStrip rr.key)
            ((buildFullCmd (pyStrip rr.cmd_write) (pyStrip rr.value)).getD "")) := by
  intro rows
  induction rows with
  | nil =>
    intro qn sn o h
    simp only [restoreLoop, Option.some.injEq] at h
    subst h
    exact ⟨rfl, rfl, rfl, rfl, rfl, rfl, rfl, rfl, rfl⟩
  | cons r rest ih =>
    intro qn sn o h
    simp only [restoreLoop] at h
    by_cases hskip : pyStrip r.cmd_write = "" ∨ pyStrip r.value = ""
    · rw [if_pos hskip, Option.map_eq_some'] at h
      obtain ⟨o2, hrec, rfl⟩ := h
      obtain ⟨h1, h2, h3, h4, h5, h6, h7, h8, h9⟩ := ih _ _ _ hrec
      refine ⟨h1, h2, h3, h4, h5, ?_, ?_, ?_, ?_⟩
      · simp only [List.length_cons]; omega
      · simp only [List.length_cons]; omega
      · have hp : (!decide (pyStrip r.cmd_write = "" ∨ pyStrip r.value = "")) = false := by
          simp [hskip]
        simp only [List.filter_cons, hp, Bool.false_eq_true, if_false]
        exact h8
      · simp only [List.map_cons, if_pos hskip]
        rw [h9]
    · rw [if_neg hskip] at h
      split at h
      · exact absurd h (by simp)
      · rename_i fc hfc
        rw [if_pos trivial, Option.map_eq_some'] at h
        obtain ⟨o2, hrec, rfl⟩ := h
        obtain ⟨h1, h2, h3, h4, h5, h6, h7, h8, h9⟩ := ih _ _ _ hrec
        refine ⟨h1, h2, h3, h4, h5, ?_, ?_, ?_, ?_⟩
        · simp only [List.length_cons]; omega
        · simp only [List.length_cons]; omega
        · have hp : (!decide (pyStrip r.cmd_write = "" ∨ pyStrip r.value = "")) = true := by
            simp [hskip]
          simp only [List.filter_cons, hp, if_true, List.length_cons]
          rw [h8]
        · simp only [List.map_cons, if_neg hskip]
          rw [h9, hfc]
          rfl

/-- C9 counterexample: with the dry-run flag set the restore run still
sends the identity sanity-check query over the transport, so the
transport trace of a dry run is not empty. -/
theorem restore_dry_run_counterexample :
    (restore_from_csv wResp wRaise [rowC] true).map RestoreResult.trace
        = some ["*IDN?"]
    ∧ ["*IDN?"] ≠ ([] : List String) := by
  exact ⟨rfl, by simp⟩

/-- C9 (amended): in a dry restore run the only transport exchange is
the initial identity sanity-check query sent before the row loop; for
every snapshot row the full write command is still constructed and
logged but no write and no readback occurs, the dry-run counter counts
exactly the non-skipped rows, and the writes, bad-verify,
write-exception and failure counters stay zero. -/
theorem restore_dry_run_spec (resp : ℕ → String) (raiseAt : ℕ → Bool)
    (rows : List SnapRow) (out : RestoreResult)
    (h : restore_from_csv resp raiseAt rows true = some out) :
    out.trace = ["*IDN?"]
    ∧ out.write_count = 0 ∧ out.bad_verify_count = 0 ∧ out.write_fail_count = 0
    ∧ out.failures = 0 ∧ out.total = rows.length
    ∧ out.skip_count + out.dry_count = rows.length
    ∧ out.dry_count = (rows.filter (fun rr =>
        !decide (pyStrip rr.cmd_write = "" ∨ pyStrip rr.value = ""))).length
    ∧ out.log = ("[INFO] *IDN? -> "
          ++ (if (try_query (resp 0)).1 then (try_query (resp 0)).2
              else "(no response)"))
        :: rows.map (fun rr =>
          if pyStrip rr.cmd_write = "" ∨ pyStrip rr.value = "" then
            skipLine (pyStrip rr.key) (pyStrip rr.cmd_write) (pyStrip rr.value)
          else dryLine (pyStrip rr.key)
            ((buildFullCmd (pyStrip rr.cmd_write) (pyStrip rr.value)).getD "")) := by
  rw [show restore_from_csv resp raiseAt rows true =
        (restoreLoop resp raiseAt true 1 0 rows).map (fun o =>
          ⟨"*IDN?" :: o.trace,
           ("[INFO] *IDN? -> "
              ++ (if (try_query (resp 0)).1 then (try_query (resp 0)).2
                  else "(no response)")) :: o.log,
           o.total, o.skip_count, o.dry_count, o.write_count, o.bad_verify_count,
           o.write_fail_count, o.failures⟩) from rfl, Option.map_eq_some'] at h
  obtain ⟨o2, hrec, rfl⟩ := h
  obtain ⟨h1, h2, h3, h4, h5, h6, h7, h8, h9⟩ :=
    restoreLoop_dry resp raiseAt rows 1 0 o2 hrec
  refine ⟨?_, h2, h3, h4, h5, h6, h7, h8, ?_⟩
  · show "*IDN?" :: o2.trace = ["*IDN?"]
    rw [h1]
  · show _ :: o2.log = _
    rw [h9]

/-- Witness for C9 (amended) on a concrete dry run over the single
empty-value row. -/
theorem restore_dry_run_spec_witness :
    restore_from_csv wResp wRaise [rowB] true = some wDryOut
    ∧ wDryOut.trace = ["*IDN?"] ∧ wDryOut.write_count = 0 :=
  ⟨rfl, (restore_dry_run_spec wResp wRaise [rowB] wDryOut rfl).1,
    (restore_dry_run_spec wResp wRaise [rowB] wDryOut rfl).2.1⟩

/-- Joining a single segment is the segment itself. -/
theorem pyIntercalateSemi_singleton (s : String) : pyIntercalateSemi [s] = s := by
  cases s with
  | mk d =>
    show String.mk (List.intercalate [';'] [d]) = String.mk d
    apply congrArg
    simp [List.intercalate, List.intersperse]

/-- Joining two segments inserts one semicolon between them. -/
theorem pyIntercalateSemi_pair (a b : String) :
    pyIntercalateSemi [a, b] = a ++ ";" ++ b := by
  cases a with
  | mk da =>
    cases b with
    | mk db =>
      show String.mk (List.intercalate [';'] [da, db]) = String.mk ((da ++ [';']) ++ db)
      apply congrArg
      simp [List.intercalate, List.intersperse]

/-- Chain rule of the write command builder: when the template contains
a semicolon and its stripped nonempty segments are init followed by a
final segment, the full command keeps every preceding segment unchanged
and appends the value to the final segment only. -/
theorem buildFullCmd_chain (cw v : String) (init : List String) (last : String)
    (hsemi : pyContainsSemi cw = true)
    (hparts : ((pySplitSemi cw).map pyStrip).filter (fun p => p != "")
        = init ++ [last]) :
    buildFullCmd cw v = some (pyIntercalateSemi (init ++ [appendValue last v])) := by
  simp only [buildFullCmd, hsemi, if_true, hparts, List.reverse_append,
    List.reverse_cons, List.reverse_nil, List.nil_append, List.singleton_append,
    List.reverse_reverse]

/-- A template without a semicolon is itself the final segment. -/
theorem buildFullCmd_single (cw v : String) (h : pyContainsSemi cw = false) :
    buildFullCmd cw v = some (appendValue cw v) := by
  simp only [buildFullCmd, h, Bool.false_eq_true, if_false, List.reverse_cons,
    List.reverse_nil, List.nil_append, List.singleton_append]
  rw [pyIntercalateSemi_singleton]

/-- An indexed-family final segment with a nonempty index takes the
value after a comma. -/
theorem appendValue_comma (t v : String)
    (h1 : (pyStartsWith t "$CBT " || pyStartsWith t "$CFT ") = true)
    (h2 : (targetIdx t != "") = true) :
    appendValue t v = t ++ "," ++ v := by
  simp only [appendValue, h1, h2, if_true]

/-- Gluing a chained range-select prefix to a spaced final segment. -/
theorem append_semi_cmj (A v : String) :
    (A ++ ";") ++ ("$CMJ " ++ v) = A ++ ";$CMJ " ++ v := by
  rw [String.append_assoc, String.append_assoc]
  rfl

/-- Any other final segment takes the value after a space. -/
theorem appendValue_space (t v : String)
    (h : (pyStartsWith t "$CBT " || pyStartsWith t "$CFT ") = false) :
    appendValue t v = t ++ " " ++ v := by
  simp only [appendValue, h, Bool.false_eq_true, if_false]

/-- C1: the write command builder splits a semicolon-chained template
into stripped segments and only the final segment receives the value,
with all preceding segments joined back unchanged; for every amplitude
index and every floating point index in range the indexed write takes
the value appended to the index with a comma, and a range-scoped write
yields the semicolon chain in which only the final segment carries the
value, separated by a space. -/
theorem restore_write_command_construction
    (cw v : String) (init : List String) (last : String) (i r2 : ℕ)
    (hi : i ≤ 120) (hr : r2 ≤ 3)
    (hsemi : pyContainsSemi cw = true)
    (hparts : ((pySplitSemi cw).map pyStrip).filter (fun p => p != "")
        = init ++ [last]) :
    buildFullCmd cw v = some (pyIntercalateSemi (init ++ [appendValue last v]))
    ∧ buildFullCmd ("$CBT " ++ natToStr i) v
        = some ("$CBT " ++ natToStr i ++ "," ++ v)
    ∧ buildFullCmd ("$CFT " ++ natToStr i) v
        = some ("$CFT " ++ natToStr i ++ "," ++ v)
    ∧ buildFullCmd ("$CRN " ++ natToStr r2 ++ ";$CMJ") v
        = some ("$CRN " ++ natToStr r2 ++ ";$CMJ " ++ v) := by
  have hcbt : ∀ j : ℕ, j ≤ 120 →
      pyContainsSemi ("$CBT " ++ natToStr j) = false
      ∧ (pyStartsWith ("$CBT " ++ natToStr j) "$CBT "
          || pyStartsWith ("$CBT " ++ natToStr j) "$CFT ") = true
      ∧ (targetIdx ("$CBT " ++ natToStr j) != "") = true := by decide
  have hcft : ∀ j : ℕ, j ≤ 120 →
      pyContainsSemi ("$CFT " ++ natToStr j) = false
      ∧ (pyStartsWith ("$CFT " ++ natToStr j) "$CBT "
          || pyStartsWith ("$CFT " ++ natToStr j) "$CFT ") = true
      ∧ (targetIdx ("$CFT " ++ natToStr j) != "") = true := by decide
  have hcrn : ∀ j : ℕ, j ≤ 3 →
      pyContainsSemi ("$CRN " ++ natToStr j ++ ";$CMJ") = true
      ∧ ((pySplitSemi ("$CRN " ++ natToStr j ++ ";$CMJ")).map pyStrip).filter
            (fun p => p != "")
          = ["$CRN " ++ natToStr j] ++ ["$CMJ"] := by decide
  refine ⟨buildFullCmd_chain cw v init last hsemi hparts, ?_, ?_, ?_⟩
  · obtain ⟨f1, f2, f3⟩ := hcbt i hi
    rw [buildFullCmd_single _ v f1, appendValue_comma _ v f2 f3]
  · obtain ⟨f1, f2, f3⟩ := hcft i hi
    rw [buildFullCmd_single _ v f1, appendValue_comma _ v f2 f3]
  · obtain ⟨f1, f2⟩ := hcrn r2 hr
    rw [buildFullCmd_chain _ v ["$CRN " ++ natToStr r2] "$CMJ" f1 f2,
      appendValue_space "$CMJ" v (by decide)]
    show some (pyIntercalateSemi ["$CRN " ++ natToStr r2, "$CMJ " ++ v])
        = some ("$CRN " ++ natToStr r2 ++ ";$CMJ " ++ v)
    rw [pyIntercalateSemi_pair, append_semi_cmj]

/-- Witness for C1 at amplitude index 5, range 2 and value 200. -/
theorem restore_write_command_construction_witness :
    (5 : ℕ) ≤ 120 ∧ (2 : ℕ) ≤ 3
    ∧ pyContainsSemi "$CRN 2;$CMJ" = true
    ∧ ((pySplitSemi "$CRN 2;$CMJ").map pyStrip).filter (fun p => p != "")
        = ["$CRN 2"] ++ ["$CMJ"]
    ∧ buildFullCmd ("$CBT " ++ natToStr 5) "200"
        = some ("$CBT " ++ natToStr 5 ++ "," ++ "200") := by
  refine ⟨by decide, by decide, by decide, by decide, ?_⟩
  exact (restore_write_command_construction "$CRN 2;$CMJ" "200" ["$CRN 2"] "$CMJ" 5 2
    (by decide) (by decide) (by decide) (by decide)).2.1

end SR720
